import Mathlib

/-!
Verification of the MoodFlix mood-based movie recommendation pipeline.

The Lean definitions below are a shallow embedding of the three Python
source files:
  * `emotion_model.py` — emotion classification and normalization
    (`EmotionDetector.detect_emotion`, `_normalize_emotion`,
    `get_emotion_confidence_level`);
  * `recommender.py` — emotion→genre mapping and the recommendation
    aggregator (`MovieRecommender.get_genres_for_emotion`,
    `recommend_movies`);
  * `main.py` — the pipeline orchestrator
    (`MoodMovieRecommendationAgent.analyze_mood_and_recommend`).

External effects are modelled as explicit parameters: the HuggingFace
classifier is a function `String → Option (String × ℚ)` (with `none`
standing for a raised exception), the OMDb-backed per-genre search is a
function `String → Nat → List MovieRecord`, and `random.shuffle` is a
function on lists that is assumed (where needed) to return a permutation
of its input.  Confidence scores are embedded as rationals.
-/

namespace MoodFlix

/-- Embeds Python's `str.lower()` (ASCII case folding on each
character). -/
def pyLower (s : String) : String :=
  String.mk (s.data.map Char.toLower)

/-- Embeds Python's `str.strip()`: removes leading and trailing
whitespace. -/
def pyStrip (s : String) : String :=
  String.mk
    (((s.data.dropWhile Char.isWhitespace).reverse.dropWhile
        Char.isWhitespace).reverse)

/-- Embeds the `emotion_mapping` dict of
`EmotionDetector._normalize_emotion` (emotion_model.py, lines 105-136),
in source order. -/
def emotion_mapping : List (String × String) :=
  [ ("joy", "joy"),
    ("happiness", "joy"),
    ("love", "love"),
    ("positive", "joy"),
    ("sadness", "sadness"),
    ("grief", "sadness"),
    ("negative", "sadness"),
    ("anger", "anger"),
    ("rage", "anger"),
    ("frustration", "anger"),
    ("fear", "fear"),
    ("anxiety", "fear"),
    ("worry", "fear"),
    ("surprise", "surprise"),
    ("amazement", "surprise"),
    ("neutral", "neutral"),
    ("disgust", "neutral"),
    ("anticipation", "surprise"),
    ("trust", "joy") ]

/-- Embeds `EmotionDetector._normalize_emotion` (emotion_model.py, line 138):
`emotion_mapping.get(emotion_label, 'neutral')`. -/
def normalize_emotion (emotion_label : String) : String :=
  (emotion_mapping.lookup emotion_label).getD "neutral"

/-- The normalization applied to a raw model label in
`EmotionDetector.detect_emotion`: the label is lowercased (line 72,
`top_prediction['label'].lower()`) before the table lookup (line 76). -/
def normalize (rawLabel : String) : String :=
  normalize_emotion (pyLower rawLabel)

/-- Embeds `EmotionDetector.get_emotion_confidence_level`
(emotion_model.py, lines 150-157). -/
def get_emotion_confidence_level (confidence : ℚ) : String :=
  if confidence ≥ 0.8 then "high"
  else if confidence ≥ 0.6 then "medium"
  else if confidence ≥ 0.4 then "low"
  else "very_low"

/-- The dict returned by `EmotionDetector.detect_emotion`
(emotion_model.py): raw label, confidence score, the raw top prediction
(`none` when the model was not consulted or failed), and the normalized
emotion. -/
structure EmotionResult where
  emotion : String
  confidence : ℚ
  raw_prediction : Option (String × ℚ)
  normalized_emotion : String
deriving Repr, DecidableEq

/-- Embeds `EmotionDetector.detect_emotion` (emotion_model.py, lines
48-92).  The external model is the `classifier` parameter; `none` models
the `except` branch (any raised error).  `pyStrip text = ""` embeds the
Python guard `not text or not text.strip()`. -/
def detect_emotion (classifier : String → Option (String × ℚ))
    (text : String) : EmotionResult :=
  if pyStrip text = "" then
    { emotion := "neutral", confidence := 0, raw_prediction := none,
      normalized_emotion := "neutral" }
  else
    match classifier (pyStrip text) with
    | none =>
        { emotion := "neutral", confidence := 0, raw_prediction := none,
          normalized_emotion := "neutral" }
    | some top_prediction =>
        let emotion_label := pyLower top_prediction.1
        { emotion := emotion_label,
          confidence := top_prediction.2,
          raw_prediction := some top_prediction,
          normalized_emotion := normalize_emotion emotion_label }

/-- Embeds the dict built by `MovieRecommender.get_movie_details`
(recommender.py, lines 170-180) and deduplicated on `imdb_id` by
`recommend_movies`. -/
structure MovieRecord where
  title : String
  year : String
  genre : String
  director : String
  plot : String
  poster : String
  imdb_rating : String
  imdb_id : String
  link : String
deriving Repr, DecidableEq

/-- Embeds `MovieRecommender.emotion_genre_mapping` (recommender.py,
lines 36-44), in source order. -/
def emotion_genre_mapping : List (String × List String) :=
  [ ("joy", ["Comedy", "Romance", "Family", "Animation", "Musical"]),
    ("love", ["Romance", "Comedy", "Family", "Drama"]),
    ("sadness", ["Drama", "Animation", "Biography", "Romance"]),
    ("anger", ["Comedy", "Adventure", "Action", "Thriller"]),
    ("fear", ["Family", "Fantasy", "Adventure", "Animation"]),
    ("surprise", ["Mystery", "Adventure", "Thriller", "Sci-Fi"]),
    ("neutral", ["Action", "Adventure", "Comedy", "Drama"]) ]

/-- Embeds `MovieRecommender.get_genres_for_emotion` (recommender.py,
line 100): `self.emotion_genre_mapping.get(emotion,
self.emotion_genre_mapping['neutral'])`.  The default is the table's own
`neutral` entry, as in the source. -/
def get_genres_for_emotion (emotion : String) : List String :=
  (emotion_genre_mapping.lookup emotion).getD
    ((emotion_genre_mapping.lookup "neutral").getD [])

/-- Embeds the per-genre quota of `MovieRecommender.recommend_movies`
(recommender.py, line 204):
`max(1, num_recommendations // len(genres)) + 1`. -/
def movies_per_genre (num_recommendations g : Nat) : Nat :=
  max 1 (num_recommendations / g) + 1

/-- Embeds the accumulation loop of `MovieRecommender.recommend_movies`
(recommender.py, lines 203-209): for each genre in table order, the
per-genre search is asked for `movies_per_genre` candidates and all
results are appended to one working list. -/
def all_movies (search : String → Nat → List MovieRecord)
    (emotion : String) (num_recommendations : Nat) : List MovieRecord :=
  let genres := get_genres_for_emotion emotion
  (genres.map (fun g =>
    search g (movies_per_genre num_recommendations genres.length))).flatten

/-- One step of the dedup loop of `recommend_movies` (recommender.py,
lines 212-215): a record is appended to the accumulated dict (insertion
order) only when its `imdb_id` is not yet a key. -/
def insertUnique (acc : List MovieRecord) (movie : MovieRecord) :
    List MovieRecord :=
  if acc.any (fun x => x.imdb_id = movie.imdb_id) then acc
  else acc ++ [movie]

/-- Embeds the dedup of `recommend_movies` (recommender.py, lines
211-218): the `unique_movies` dict is insertion-ordered and first-wins,
and `list(unique_movies.values())` reads it back in that order. -/
def dedupFirst (movies : List MovieRecord) : List MovieRecord :=
  movies.foldl insertUnique []

/-- Embeds `MovieRecommender.recommend_movies` (recommender.py, lines
186-225).  `random.shuffle` is the `shuffle` parameter; the OMDb-backed
`search_movies_by_genre` is the `search` parameter. -/
def recommend_movies (search : String → Nat → List MovieRecord)
    (shuffle : List MovieRecord → List MovieRecord)
    (emotion : String) (num_recommendations : Nat) : List MovieRecord :=
  let unique_movies_list := dedupFirst (all_movies search emotion num_recommendations)
  (shuffle unique_movies_list).take num_recommendations

/-- The dict returned by `MoodMovieRecommendationAgent.analyze_mood_and_recommend`
(main.py, lines 101-108) on the non-empty path. -/
structure AgentResult where
  emotion_analysis : EmotionResult
  detected_emotion : String
  confidence : ℚ
  confidence_level : String
  recommendations : List MovieRecord
  genres : List String
deriving Repr, DecidableEq

/-- Embeds `MoodMovieRecommendationAgent.analyze_mood_and_recommend`
(main.py, lines 53-112).  The first component of the pair records
whether the low-confidence advisory (lines 75-77, `if confidence < 0.4`)
was printed; `none` embeds the `return None` taken when the aggregator
returns no recommendations. -/
def analyze_mood_and_recommend (classifier : String → Option (String × ℚ))
    (search : String → Nat → List MovieRecord)
    (shuffle : List MovieRecord → List MovieRecord)
    (user_input : String) (num_recommendations : Nat) :
    Bool × Option AgentResult :=
  let emotion_result := detect_emotion classifier user_input
  let detected_emotion := emotion_result.normalized_emotion
  let confidence := emotion_result.confidence
  let confidence_level := get_emotion_confidence_level confidence
  let advisory := decide (confidence < 0.4)
  let recommendations :=
    recommend_movies search shuffle detected_emotion num_recommendations
  if recommendations = [] then (advisory, none)
  else
    (advisory,
     some { emotion_analysis := emotion_result,
            detected_emotion := detected_emotion,
            confidence := confidence,
            confidence_level := confidence_level,
            recommendations := recommendations,
            genres := get_genres_for_emotion detected_emotion })
/-- Fixture: a Comedy record with catalog id `tt001`. -/
def movieA : MovieRecord :=
  { title := "First", year := "1994", genre := "Comedy", director := "D1",
    plot := "P1", poster := "U1", imdb_rating := "8.0", imdb_id := "tt001",
    link := "L1" }

/-- Fixture: a Romance record that shares catalog id `tt001` with
`movieA` but differs in every other field. -/
def movieB : MovieRecord :=
  { title := "Second", year := "1999", genre := "Romance", director := "D2",
    plot := "P2", poster := "U2", imdb_rating := "7.0", imdb_id := "tt001",
    link := "L2" }

/-- Fixture: a record with the distinct catalog id `tt002`. -/
def movieC : MovieRecord :=
  { title := "Third", year := "2001", genre := "Drama", director := "D3",
    plot := "P3", poster := "U3", imdb_rating := "6.0", imdb_id := "tt002",
    link := "L3" }

/-- Fixture search: the Comedy search returns `movieA` and the Romance
search returns the duplicate-id `movieB`; all other genres are empty. -/
def searchDup : String → Nat → List MovieRecord := fun genre _ =>
  if genre = "Comedy" then [movieA]
  else if genre = "Romance" then [movieB]
  else []

/-- Fixture search: the Action search returns two records with distinct
ids; all other genres are empty. -/
def searchTwo : String → Nat → List MovieRecord := fun genre _ =>
  if genre = "Action" then [movieA, movieC] else []
theorem sub_insertUnique (acc : List MovieRecord) (m : MovieRecord) :
    acc ⊆ insertUnique acc m := by
  unfold insertUnique
  split
  · exact List.Subset.refl acc
  · exact List.subset_append_left acc [m]

theorem mem_insertUnique {acc : List MovieRecord} {m x : MovieRecord}
    (h : x ∈ insertUnique acc m) : x ∈ acc ∨ x = m := by
  unfold insertUnique at h
  split at h
  · exact Or.inl h
  · rcases List.mem_append.mp h with h' | h'
    · exact Or.inl h'
    · exact Or.inr (List.mem_singleton.mp h')

theorem ids_insertUnique_nodup {acc : List MovieRecord} (m : MovieRecord)
    (h : (acc.map MovieRecord.imdb_id).Nodup) :
    ((insertUnique acc m).map MovieRecord.imdb_id).Nodup := by
  unfold insertUnique
  split
  next => exact h
  next hany =>
    rw [List.map_append]
    simp only [List.map_cons, List.map_nil]
    rw [List.nodup_append]
    refine ⟨h, List.nodup_singleton _, ?_⟩
    intro i hi hj
    simp only [List.mem_singleton] at hj
    subst hj
    simp only [List.any_eq_true, decide_eq_true_eq, not_exists, not_and] at hany
    rcases List.mem_map.mp hi with ⟨y, hy, hyi⟩
    exact hany y hy hyi

theorem foldl_insertUnique_nodup (l : List MovieRecord) :
    ∀ acc, (acc.map MovieRecord.imdb_id).Nodup →
      ((l.foldl insertUnique acc).map MovieRecord.imdb_id).Nodup := by
  induction l with
  | nil => intro acc h; exact h
  | cons a t ih =>
    intro acc h
    exact ih (insertUnique acc a) (ids_insertUnique_nodup a h)

theorem foldl_insertUnique_first (l : List MovieRecord) :
    ∀ acc m, m ∈ l.foldl insertUnique acc →
      m ∈ acc ∨ ((∀ x ∈ acc, x.imdb_id ≠ m.imdb_id) ∧
        l.find? (fun x => x.imdb_id == m.imdb_id) = some m) := by
  induction l with
  | nil => intro acc m h; exact Or.inl h
  | cons a t ih =>
    intro acc m h
    rcases ih (insertUnique acc a) m h with h1 | ⟨h2, h3⟩
    · unfold insertUnique at h1
      split at h1
      next => exact Or.inl h1
      next hany =>
        rcases List.mem_append.mp h1 with h' | h'
        · exact Or.inl h'
        · have hm : m = a := List.mem_singleton.mp h'
          subst hm
          right
          simp only [List.any_eq_true, decide_eq_true_eq, not_exists, not_and] at hany
          refine ⟨fun x hx he => hany x hx he, ?_⟩
          rw [List.find?_cons_of_pos]
          simp
    · right
      have hacc : ∀ x ∈ acc, x.imdb_id ≠ m.imdb_id :=
        fun x hx => h2 x (sub_insertUnique acc a hx)
      refine ⟨hacc, ?_⟩
      have hne : a.imdb_id ≠ m.imdb_id := by
        unfold insertUnique at h2
        split at h2
        next hany =>
          simp only [List.any_eq_true, decide_eq_true_eq] at hany
          rcases hany with ⟨y, hy, hyid⟩
          rw [← hyid]
          exact h2 y hy
        next =>
          exact h2 a (List.mem_append.mpr (Or.inr (List.mem_singleton_self a)))
      rw [List.find?_cons_of_neg _ (by simp [hne]), h3]

theorem dedupFirst_ids_nodup (l : List MovieRecord) :
    ((dedupFirst l).map MovieRecord.imdb_id).Nodup :=
  foldl_insertUnique_nodup l [] (by simp)

theorem dedupFirst_first {l : List MovieRecord} {m : MovieRecord}
    (h : m ∈ dedupFirst l) :
    l.find? (fun x => x.imdb_id == m.imdb_id) = some m := by
  rcases foldl_insertUnique_first l [] m h with h' | ⟨_, h'⟩
  · simp at h'
  · exact h'

theorem very_low_iff (c : ℚ) :
    get_emotion_confidence_level c = "very_low" ↔ c < 0.4 := by
  unfold get_emotion_confidence_level
  split_ifs with h1 h2 h3
  · constructor
    · intro h; simp at h
    · intro h; linarith
  · constructor
    · intro h; simp at h
    · intro h; linarith
  · constructor
    · intro h; simp at h
    · intro h; linarith
  · simp
    linarith

/-- C3: `normalize` is pure and total (it is a Lean function), its
matching is case-insensitive (it depends on the raw label only through
its lowercasing), every label enumerated in the policy table maps to its
documented canonical emotion, and every label whose lowercasing is not a
key of the table maps to `"neutral"`. -/
theorem normalize_spec :
    (∀ s t : String, pyLower s = pyLower t → normalize s = normalize t) ∧
    (∀ p ∈ emotion_mapping, normalize p.1 = p.2) ∧
    (∀ s : String, List.lookup (pyLower s) emotion_mapping = none →
      normalize s = "neutral") := by
  refine ⟨?_, ?_, ?_⟩
  · intro s t h
    unfold normalize
    rw [h]
  · decide
  · intro s h
    unfold normalize normalize_emotion
    rw [h]
    rfl

/-- Witness for C3 at concrete inputs. -/
theorem normalize_spec_witness :
    normalize "HAPPINESS" = normalize "Happiness" ∧
    normalize "zzz" = "neutral" :=
  ⟨normalize_spec.1 "HAPPINESS" "Happiness" (by decide),
   normalize_spec.2.2 "zzz" (by decide)⟩

/-- C4 counterexample: the claim's point check `0.79 → low` is false on
the code: a score of 0.79 is at least 0.6 and below 0.8, so
`get_emotion_confidence_level` returns `"medium"`. -/
theorem confidence_tier_counterexample :
    get_emotion_confidence_level 0.79 = "medium" ∧
    get_emotion_confidence_level 0.79 ≠ "low" := by
  unfold get_emotion_confidence_level
  norm_num
  decide

/-- C4 amended: `get_emotion_confidence_level` is the pure step function
with breakpoints 0.8 / 0.6 / 0.4, and the point checks hold with
`0.79 → medium` (not `low` as claimed). -/
theorem confidence_tier_spec :
    (∀ score : ℚ,
      (0.8 ≤ score → get_emotion_confidence_level score = "high") ∧
      (0.6 ≤ score → score < 0.8 → get_emotion_confidence_level score = "medium") ∧
      (0.4 ≤ score → score < 0.6 → get_emotion_confidence_level score = "low") ∧
      (score < 0.4 → get_emotion_confidence_level score = "very_low")) ∧
    get_emotion_confidence_level 0.79 = "medium" ∧
    get_emotion_confidence_level 0.8 = "high" ∧
    get_emotion_confidence_level 0.59 = "low" ∧
    get_emotion_confidence_level 0.6 = "medium" ∧
    get_emotion_confidence_level 0.39 = "very_low" ∧
    get_emotion_confidence_level 0.4 = "low" := by
  constructor
  · intro score
    refine ⟨?_, ?_, ?_, ?_⟩ <;> intros <;>
      · unfold get_emotion_confidence_level
        split_ifs <;> first | rfl | linarith
  · unfold get_emotion_confidence_level
    norm_num

/-- Witness for C4 at a concrete score. -/
theorem confidence_tier_spec_witness :
    get_emotion_confidence_level 0.92 = "high" :=
  (confidence_tier_spec.1 0.92).1 (by norm_num)

theorem mem_of_lookup_some {β : Type} {a : String} {b : β} :
    ∀ {l : List (String × β)}, List.lookup a l = some b → (a, b) ∈ l := by
  intro l h
  induction l with
  | nil => simp [List.lookup] at h
  | cons p t ih =>
    obtain ⟨k, v⟩ := p
    rw [List.lookup] at h
    by_cases hk : a = k
    · subst hk
      simp at h
      subst h
      exact List.mem_cons_self _ _
    · have hbeq : (a == k) = false := beq_eq_false_iff_ne.mpr hk
      rw [hbeq] at h
      exact List.mem_cons_of_mem _ (ih h)

/-- C5: `get_genres_for_emotion` returns the documented list for each of
the 7 canonical emotions, returns the `neutral` entry for any input that
is not a key of the table, and never returns an empty list. -/
theorem genres_for_emotion_spec :
    get_genres_for_emotion "joy" = ["Comedy", "Romance", "Family", "Animation", "Musical"] ∧
    get_genres_for_emotion "love" = ["Romance", "Comedy", "Family", "Drama"] ∧
    get_genres_for_emotion "sadness" = ["Drama", "Animation", "Biography", "Romance"] ∧
    get_genres_for_emotion "anger" = ["Comedy", "Adventure", "Action", "Thriller"] ∧
    get_genres_for_emotion "fear" = ["Family", "Fantasy", "Adventure", "Animation"] ∧
    get_genres_for_emotion "surprise" = ["Mystery", "Adventure", "Thriller", "Sci-Fi"] ∧
    get_genres_for_emotion "neutral" = ["Action", "Adventure", "Comedy", "Drama"] ∧
    (∀ s : String, List.lookup s emotion_genre_mapping = none →
      get_genres_for_emotion s = ["Action", "Adventure", "Comedy", "Drama"]) ∧
    (∀ s : String, get_genres_for_emotion s ≠ []) := by
  refine ⟨by decide, by decide, by decide, by decide, by decide, by decide, by decide, ?_, ?_⟩
  · intro s h
    unfold get_genres_for_emotion
    rw [h]
    rfl
  · intro s
    unfold get_genres_for_emotion
    cases h : List.lookup s emotion_genre_mapping with
    | none => decide
    | some gl =>
        have hm := mem_of_lookup_some h
        simp only [Option.getD_some]
        simp only [emotion_genre_mapping, List.mem_cons, List.not_mem_nil,
          or_false, Prod.mk.injEq] at hm
        rcases hm with ⟨_, rfl⟩ | ⟨_, rfl⟩ | ⟨_, rfl⟩ | ⟨_, rfl⟩ |
          ⟨_, rfl⟩ | ⟨_, rfl⟩ | ⟨_, rfl⟩ <;> simp
/-- Witness for C5 at a concrete out-of-taxonomy input. -/
theorem genres_for_emotion_spec_witness :
    get_genres_for_emotion "confused" = ["Action", "Adventure", "Comedy", "Drama"] :=
  genres_for_emotion_spec.2.2.2.2.2.2.2.1 "confused" (by decide)

/-- C6: on empty or whitespace-only input, `detect_emotion` returns the
degraded result (no raw prediction, confidence 0, neutral emotion), its
confidence tier is `"very_low"`, and the external classifier is never
consulted: the result does not depend on the classifier at all. -/
theorem detect_emotion_blank_spec
    (classifier : String → Option (String × ℚ)) (text : String)
    (h : pyStrip text = "") :
    detect_emotion classifier text =
      { emotion := "neutral", confidence := 0, raw_prediction := none,
        normalized_emotion := "neutral" } ∧
    get_emotion_confidence_level (detect_emotion classifier text).confidence
      = "very_low" ∧
    (∀ classifier2 : String → Option (String × ℚ),
      detect_emotion classifier text = detect_emotion classifier2 text) := by
  refine ⟨?_, ?_, ?_⟩
  · unfold detect_emotion
    rw [if_pos h]
  · unfold detect_emotion
    rw [if_pos h]
    unfold get_emotion_confidence_level
    norm_num
  · intro classifier2
    unfold detect_emotion
    rw [if_pos h, if_pos h]

/-- Witness for C6 on the whitespace-only input `"   "`. -/
theorem detect_emotion_blank_spec_witness :
    detect_emotion (fun _ => some ("joy", 0.9)) "   " =
      { emotion := "neutral", confidence := 0, raw_prediction := none,
        normalized_emotion := "neutral" } :=
  (detect_emotion_blank_spec (fun _ => some ("joy", 0.9)) "   " (by decide)).1

/-- C7: on non-blank input, if the external classifier call raises (is
`none`), `detect_emotion` does not propagate the failure: it returns the
same degraded neutral result as for empty input. -/
theorem detect_emotion_failure_spec
    (classifier : String → Option (String × ℚ)) (text : String)
    (hne : pyStrip text ≠ "") (hf : classifier (pyStrip text) = none) :
    detect_emotion classifier text =
      { emotion := "neutral", confidence := 0, raw_prediction := none,
        normalized_emotion := "neutral" } := by
  unfold detect_emotion
  rw [if_neg hne, hf]

/-- Witness for C7 on the input `"hi"` with an always-failing
classifier. -/
theorem detect_emotion_failure_spec_witness :
    detect_emotion (fun _ => none) "hi" =
      { emotion := "neutral", confidence := 0, raw_prediction := none,
        normalized_emotion := "neutral" } :=
  detect_emotion_failure_spec (fun _ => none) "hi" (by decide) rfl
/-- C1 counterexample: for `count = 3` and the 5-genre emotion joy the
per-genre quota computed by `recommend_movies` is
`max(1, 3 // 5) + 1 = 2`, not `floor(3/5) + 1 = 1` as claimed. -/
theorem quota_claim_counterexample :
    movies_per_genre 3 (get_genres_for_emotion "joy").length ≠
      3 / (get_genres_for_emotion "joy").length + 1 := by
  decide

/-- C1 amended: the per-genre quota is `max(1, floor(count/G)) + 1`,
i.e. `floor(count/G) + 1` when `count ≥ G` and `2` when `count < G`; in
particular for `count = 3` and joy's 5 genres every per-genre search is
asked for 2 candidates, and the working list of `recommend_movies` pulls
exactly that quota from each genre. -/
theorem movies_per_genre_spec :
    (∀ count g : Nat, 1 ≤ g →
      movies_per_genre count g = if count < g then 2 else count / g + 1) ∧
    movies_per_genre 3 (get_genres_for_emotion "joy").length = 2 ∧
    (∀ search count, all_movies search "joy" count =
      ((get_genres_for_emotion "joy").map
        (fun genre => search genre (movies_per_genre count 5))).flatten) := by
  refine ⟨?_, by decide, ?_⟩
  · intro count g hg
    unfold movies_per_genre
    by_cases h : count < g
    · rw [if_pos h, Nat.div_eq_of_lt h]
      rfl
    · rw [if_neg h]
      have h1 : 1 ≤ count / g :=
        (Nat.one_le_div_iff (Nat.lt_of_lt_of_le Nat.zero_lt_one hg)).mpr
          (Nat.le_of_not_lt h)
      rw [Nat.max_eq_right h1]
  · intro search count
    rfl

/-- Witness for C1 (amended) at concrete quota inputs. -/
theorem movies_per_genre_spec_witness :
    movies_per_genre 10 4 = 3 := by
  have h := movies_per_genre_spec.1 10 4 (by norm_num)
  simpa using h

/-- C10: called with `count = 0`, `recommend_movies` does not fail: the
per-genre quota is still `max(1, 0) + 1 = 2` for every genre-list
length, the working list still pulls 2 candidates from every mapped
genre, and the returned recommendation list is empty. -/
theorem recommend_zero_count_spec :
    (∀ g : Nat, movies_per_genre 0 g = 2) ∧
    (∀ search emotion, all_movies search emotion 0 =
      ((get_genres_for_emotion emotion).map (fun genre => search genre 2)).flatten) ∧
    (∀ search shuffle emotion, recommend_movies search shuffle emotion 0 = []) := by
  refine ⟨?_, ?_, ?_⟩
  · intro g
    unfold movies_per_genre
    rw [Nat.zero_div]
    rfl
  · intro search emotion
    unfold all_movies
    simp only [movies_per_genre, Nat.zero_div]
    rfl
  · intro search shuffle emotion
    unfold recommend_movies
    exact List.take_zero _
/-- Auxiliary: the recommendation output never repeats a catalog id,
whenever the shuffle returns a permutation of its input. -/
theorem recommend_ids_nodup (search : String → Nat → List MovieRecord)
    (shuffle : List MovieRecord → List MovieRecord)
    (emotion : String) (count : Nat)
    (hs : ∀ l, (shuffle l).Perm l) :
    ((recommend_movies search shuffle emotion count).map
      MovieRecord.imdb_id).Nodup := by
  unfold recommend_movies
  have hperm :=
    (hs (dedupFirst (all_movies search emotion count))).map MovieRecord.imdb_id
  have hshuf :
      ((shuffle (dedupFirst (all_movies search emotion count))).map
        MovieRecord.imdb_id).Nodup :=
    hperm.symm.nodup (dedupFirst_ids_nodup _)
  rw [List.map_take]
  exact List.Nodup.sublist (List.take_sublist _ _) hshuf

/-- C8: the dedup of `recommend_movies` is stable first-wins — the
output never repeats an imdb id, every output record is the first
record with its id in the step-3 working list, and every record
retained by the dedup is likewise the first occurrence of its id. -/
theorem recommend_dedup_first_wins (search : String → Nat → List MovieRecord)
    (shuffle : List MovieRecord → List MovieRecord)
    (emotion : String) (count : Nat)
    (hs : ∀ l, (shuffle l).Perm l) :
    ((recommend_movies search shuffle emotion count).map
      MovieRecord.imdb_id).Nodup ∧
    (∀ m ∈ recommend_movies search shuffle emotion count,
      (all_movies search emotion count).find?
        (fun x => x.imdb_id == m.imdb_id) = some m) ∧
    (∀ m ∈ dedupFirst (all_movies search emotion count),
      (all_movies search emotion count).find?
        (fun x => x.imdb_id == m.imdb_id) = some m) := by
  refine ⟨recommend_ids_nodup search shuffle emotion count hs, ?_, ?_⟩
  · intro m hm
    unfold recommend_movies at hm
    have h1 : m ∈ shuffle (dedupFirst (all_movies search emotion count)) :=
      List.take_subset _ _ hm
    have h2 : m ∈ dedupFirst (all_movies search emotion count) :=
      (hs _).subset h1
    exact dedupFirst_first h2
  · intro m hm
    exact dedupFirst_first hm

/-- C9: for any outcome of the per-genre searches, the output size of
`recommend_movies` is `min(count, P)` where `P` is the size of the
deduplicated pool, the output never repeats an imdb id, and an empty
pool yields the empty list as a valid result. -/
theorem recommend_size_law (search : String → Nat → List MovieRecord)
    (shuffle : List MovieRecord → List MovieRecord)
    (emotion : String) (count : Nat)
    (_hc : 1 ≤ count) (hs : ∀ l, (shuffle l).Perm l) :
    (recommend_movies search shuffle emotion count).length =
      min count (dedupFirst (all_movies search emotion count)).length ∧
    ((recommend_movies search shuffle emotion count).map
      MovieRecord.imdb_id).Nodup ∧
    ((dedupFirst (all_movies search emotion count)).length = 0 →
      recommend_movies search shuffle emotion count = []) := by
  have hlen : (recommend_movies search shuffle emotion count).length =
      min count (dedupFirst (all_movies search emotion count)).length := by
    unfold recommend_movies
    rw [List.length_take, (hs _).length_eq]
  refine ⟨hlen, recommend_ids_nodup search shuffle emotion count hs, ?_⟩
  intro hp
  have : (recommend_movies search shuffle emotion count).length = 0 := by
    rw [hlen, hp, Nat.min_zero]
  exact List.eq_nil_of_length_eq_zero this
/-- Witness for C8: with duplicate id `tt001` coming from two genre
searches, the output ids are duplicate-free and the retained record is
`movieA`, the first occurrence in table order. -/
theorem recommend_dedup_first_wins_witness :
    ((recommend_movies searchDup id "joy" 3).map MovieRecord.imdb_id).Nodup ∧
    (all_movies searchDup "joy" 3).find?
      (fun x => x.imdb_id == movieA.imdb_id) = some movieA := by
  have h := recommend_dedup_first_wins searchDup id "joy" 3
    (fun l => List.Perm.refl l)
  exact ⟨h.1, h.2.2 movieA (by decide)⟩

/-- Witness for C9: a unique pool of size 2 with `count = 5` yields
`min 5 2` recommendations. -/
theorem recommend_size_law_witness :
    1 ≤ 5 ∧
    (recommend_movies searchTwo id "neutral" 5).length =
      min 5 (dedupFirst (all_movies searchTwo "neutral" 5)).length :=
  ⟨by decide,
   (recommend_size_law searchTwo id "neutral" 5 (by decide)
     (fun l => List.Perm.refl l)).1⟩
/-- C2 counterexample: a classification with confidence 0.5 has tier
`"low"`, yet `analyze_mood_and_recommend` does not flag the
low-confidence advisory (its guard is `confidence < 0.4`). -/
theorem advisory_claim_counterexample :
    get_emotion_confidence_level
        (detect_emotion (fun _ => some ("joy", 0.5)) "happy").confidence
      = "low" ∧
    (analyze_mood_and_recommend (fun _ => some ("joy", 0.5))
        (fun _ _ => []) id "happy" 3).1 = false := by
  constructor
  · have hd : detect_emotion (fun _ => some ("joy", (0.5 : ℚ))) "happy" =
        { emotion := "joy", confidence := 0.5,
          raw_prediction := some ("joy", 0.5),
          normalized_emotion := "joy" } := rfl
    rw [hd]
    norm_num [get_emotion_confidence_level]
  · simp +decide [analyze_mood_and_recommend, detect_emotion,
      recommend_movies, all_movies, dedupFirst, insertUnique,
      get_genres_for_emotion, emotion_genre_mapping, movies_per_genre,
      pyStrip, pyLower, normalize_emotion, emotion_mapping,
      decide_eq_false_iff_not]
    norm_num

/-- C2 amended: the orchestrator flags the low-confidence advisory
exactly when the confidence is below 0.4 — that is, exactly when the
tier is `"very_low"`, not also for `"low"` — and flagging never blocks
recommendation: the recommendations handed back (when any) are exactly
the Aggregator output for the normalized emotion and the requested
count, with `none` exactly when that output is empty. -/
theorem advisory_spec (classifier : String → Option (String × ℚ))
    (search : String → Nat → List MovieRecord)
    (shuffle : List MovieRecord → List MovieRecord)
    (user_input : String) (count : Nat) :
    ((analyze_mood_and_recommend classifier search shuffle user_input count).1
        = true ↔
      (detect_emotion classifier user_input).confidence < 0.4) ∧
    ((analyze_mood_and_recommend classifier search shuffle user_input count).1
        = true ↔
      get_emotion_confidence_level
        (detect_emotion classifier user_input).confidence = "very_low") ∧
    (Option.map AgentResult.recommendations
        (analyze_mood_and_recommend classifier search shuffle user_input count).2
      = if recommend_movies search shuffle
            (detect_emotion classifier user_input).normalized_emotion count = []
        then none
        else some (recommend_movies search shuffle
            (detect_emotion classifier user_input).normalized_emotion count)) := by
  unfold analyze_mood_and_recommend
  split
  next hempty =>
    refine ⟨?_, ?_, ?_⟩ <;> simp [hempty, very_low_iff]
  next hne =>
    refine ⟨?_, ?_, ?_⟩ <;> simp [hne, very_low_iff]

end MoodFlix
